import Mathlib

/-!
Verification of a Raiden-style payment-channel node (Rust sources) against its
natural-language specification.  The Rust code is shallowly embedded: machine
integers (`U64`, `U256`, 20-byte addresses, 32-byte hashes) become `Nat` with
explicit truncation where the code truncates; byte strings become `List Nat`
(each element a byte value); `HashMap`s become association lists; fallible
functions return `Except`/`Option`.  External cryptographic primitives
(keccak-256, secp256k1 signing and point recovery) are taken as parameters of
the definitions that use them, since the repository only calls into foreign
libraries for them; everything the repository itself computes is embedded.
-/

namespace PaymentChannel

/-- Big-endian byte encoding of `x` on exactly `n` bytes (the value is reduced
modulo `256 ^ n`, matching `to_big_endian` on fixed-width machine integers). -/
def beBytes : Nat → Nat → List Nat
  | 0, _ => []
  | n + 1, x => beBytes n (x / 256) ++ [x % 256]

/-- `ethabi::Token`, restricted to the two static variants this code base
builds and matches on (`Token::Address`, `Token::Uint`).  Addresses are 20-byte
values, uints 256-bit values; both are carried as `Nat`. -/
inductive Token
  | address (a : Nat)
  | uint (x : Nat)
  deriving DecidableEq, Repr

/-- ABI head encoding of one static token: a single 32-byte word.  An address
is left-padded with 12 zero bytes, a uint is the 32-byte big-endian word. -/
def abiWord : Token → List Nat
  | .address a => beBytes 32 a
  | .uint x => beBytes 32 x

/-- `ethabi::encode` on a list of static tokens: concatenation of the 32-byte
head words (no tail section exists for static types). -/
def ethabiEncode (ts : List Token) : List Nat :=
  (ts.map abiWord).flatten

/-- `MessageTypeId` (src/raiden/network/messages/src/messages/mod.rs). -/
inductive MessageTypeId
  | BalanceProof
  | BalanceProofUpdate
  | Withdraw
  | CooperativeSettle
  | IOU
  | MSReward
  deriving DecidableEq, Repr

/-- The `as u8` discriminant values of `MessageTypeId`. -/
def MessageTypeId.toU8 : MessageTypeId → Nat
  | .BalanceProof => 1
  | .BalanceProofUpdate => 2
  | .Withdraw => 3
  | .CooperativeSettle => 4
  | .IOU => 5
  | .MSReward => 6

/-- `CanonicalIdentifier`: `(chain_id, token_network_address,
channel_identifier)`.  The numeric value of `ChainID` (its `Into<U256>`
conversion) is modelled as the chain id itself, per the spec's description of
`chain_id` as an unsigned integer packed big-endian. -/
structure CanonicalIdentifier where
  chain_identifier : Nat
  token_network_address : Nat
  channel_identifier : Nat
  deriving DecidableEq, Repr

/-- `pack_balance_proof` (src/raiden/primitives/src/packing.rs, lines 24-42):
raw 20 address bytes, then ABI words for chain id, message type, channel id,
then the raw 32 bytes of the balance hash, the nonce word, and the raw 32
bytes of the additional hash. -/
def pack_balance_proof (nonce : Nat) (balance_hash : Nat) (additional_hash : Nat)
    (canonical_identifier : CanonicalIdentifier) (msg_type : MessageTypeId) : List Nat :=
  beBytes 20 canonical_identifier.token_network_address
    ++ ethabiEncode [.uint canonical_identifier.chain_identifier]
    ++ ethabiEncode [.uint msg_type.toU8]
    ++ ethabiEncode [.uint canonical_identifier.channel_identifier]
    ++ beBytes 32 balance_hash
    ++ ethabiEncode [.uint nonce]
    ++ beBytes 32 additional_hash

/-- `pack_withdraw` (src/raiden/primitives/src/packing.rs, lines 60-78): a
single `ethabi::encode` call over
`[Address tna, Uint chain, Uint channel, Address participant, Uint amount,
Uint expiration]`. -/
def pack_withdraw (canonical_identifier : CanonicalIdentifier) (participant : Nat)
    (total_withdraw : Nat) (expiration_block : Nat) : List Nat :=
  ethabiEncode
    [.address canonical_identifier.token_network_address,
     .uint canonical_identifier.chain_identifier,
     .uint canonical_identifier.channel_identifier,
     .address participant,
     .uint total_withdraw,
     .uint expiration_block]

/-- The withdraw-family signing layout as the spec words it (refinement
comparison definition, built from the spec text, NOT from the source):
`token_network_address(20) ‖ chain_id(32) ‖ channel_id(32) ‖ participant(20) ‖
total_withdraw(32) ‖ expiration(32)`, numeric fields big-endian, no other
bytes. -/
def withdrawSpecLayout (canonical_identifier : CanonicalIdentifier) (participant : Nat)
    (total_withdraw : Nat) (expiration_block : Nat) : List Nat :=
  beBytes 20 canonical_identifier.token_network_address
    ++ beBytes 32 canonical_identifier.chain_identifier
    ++ beBytes 32 canonical_identifier.channel_identifier
    ++ beBytes 20 participant
    ++ beBytes 32 total_withdraw
    ++ beBytes 32 expiration_block

/-! ### Signing and recovery (src/raiden/blockchain/src/keys.rs)

Keccak-256 and the raw secp256k1 operations live in foreign crates
(`tiny_keccak`, `ethsign`, `secp256k1`); they enter the model as parameters:
`keccak : List Nat → List Nat` for the digest, `rawSign` for
`SecretKey::sign` (returning `r`, `s` and the raw recovery value `v`, which
the library yields in `{0, 1}`), and `recoverPoint` for the pure point
recovery inside `web3::signing::recover`. -/

/-- The raw secp256k1 signature returned by `ethsign::SecretKey::sign`. -/
structure EcdsaSig where
  r : Nat
  s : Nat
  v : Nat
  deriving DecidableEq, Repr

/-- `web3::signing::Signature` (`r`, `s`, 64-bit `v`). -/
structure Web3Signature where
  r : Nat
  s : Nat
  v : Nat
  deriving DecidableEq, Repr

/-- The bytes of the string `"\x19Ethereum Signed Message:\n"`. -/
def prefixMsgBytes : List Nat :=
  ("\x19Ethereum Signed Message:\n").toList.map (fun c => c.toNat)

/-- ASCII decimal digits of `n` (the bytes of `n.to_string()`). -/
def lenAscii (n : Nat) : List Nat :=
  (Nat.toDigits 10 n).map (fun c => c.toNat)

/-- `hash_data` (keys.rs, lines 25-39): keccak-256 over
`"\x19Ethereum Signed Message:\n" ‖ decimal length ‖ data`. -/
def hash_data (keccak : List Nat → List Nat) (data : List Nat) : List Nat :=
  keccak (prefixMsgBytes ++ lenAscii data.length ++ data)

/-- `<PrivateKey as Key>::sign` (keys.rs, lines 83-97): sign the given message
directly; `v = raw_v + 35 + chain_id * 2` when a chain id is supplied,
`raw_v + 27` otherwise. -/
def key_sign (rawSign : List Nat → EcdsaSig) (message : List Nat)
    (chain_id : Option Nat) : Web3Signature :=
  let signature := rawSign message
  let standard_v := signature.v
  let v := match chain_id with
    | some cid => standard_v + 35 + cid * 2
    | none => standard_v + 27
  ⟨signature.r, signature.s, v⟩

/-- `<PrivateKey as Key>::sign_message` (keys.rs, lines 99-108): apply the
personal-message framing via `hash_data`, sign the digest, set
`v = raw_v + 27`. -/
def sign_message (keccak : List Nat → List Nat) (rawSign : List Nat → EcdsaSig)
    (message : List Nat) : Web3Signature :=
  let data_hash := hash_data keccak message
  let signature := rawSign data_hash
  ⟨signature.r, signature.s, signature.v + 27⟩

/-- The 65-byte wire form `r(32) ‖ s(32) ‖ v(1)` of a signature. -/
def signature_to_bytes (s : Web3Signature) : List Nat :=
  beBytes 32 s.r ++ beBytes 32 s.s ++ [s.v % 256]

/-- Error value of `web3::signing::RecoveryError` (payload elided). -/
inductive RecoveryError
  | mk
  deriving DecidableEq, Repr

/-- `web3::signing::recover`: the recovery id must be one of `0..=3`, the
compact signature must be 64 bytes, and the message slice must be exactly 32
bytes (it is parsed as a `secp256k1::Message`); only then is the point
recovery applied. -/
def web3_recover (recoverPoint : List Nat → List Nat → Nat → Nat)
    (message : List Nat) (signature : List Nat) (recovery_id : Int) :
    Except RecoveryError Nat :=
  if 0 ≤ recovery_id ∧ recovery_id ≤ 3 ∧ signature.length = 64 ∧ message.length = 32 then
    .ok (recoverPoint message signature recovery_id.toNat)
  else
    .error .mk

/-- `recover` (keys.rs, lines 41-46).  The source computes
`hashed_data = hash_data(data)` and then passes the UNHASHED `data` to
`signing::recover`; the model reproduces that (the `hashed_data` binding is
dead, exactly as in the source). -/
def recover (recoverPoint : List Nat → List Nat → Nat → Nat)
    (keccak : List Nat → List Nat) (data : List Nat) (signature : List Nat) :
    Except RecoveryError Nat :=
  let hashed_data := hash_data keccak data
  let recovery_id : Int := ((signature.getD 64 0 : Nat) : Int) - 27
  web3_recover recoverPoint data (signature.take 64) recovery_id

/-! ### Channel state (src/src/state_machine/types/state.rs)

`HashMap`s become association lists (`List (key × value)`); unsigned 256/64
bit integers become `Nat`, with the checked arithmetic of the `U256` type
(which panics on overflow or underflow) modelled by `Option`-valued
operations where the claim depends on it. -/

inductive TransactionResult
  | Success
  | Failure
  deriving DecidableEq, Repr

structure TransactionExecutionStatus where
  started_block_number : Option Nat
  finished_block_number : Option Nat
  result : Option TransactionResult
  deriving DecidableEq, Repr

inductive ChannelStatus
  | Opened
  | Closing
  | Closed
  | Settling
  | Settled
  | Removed
  | Unusable
  deriving DecidableEq, Repr

/-- Modelled from the spec: `MediationFeeConfig` (the `primitives` module is
not among the provided sources) holds the per-token mediation-fee options
`token_to_flat_fee`, `token_to_proportional_fee` and `cap_mediation_fees`;
`get_flat_fee`/`get_proportional_fee` look a token address up, defaulting
to zero. -/
structure MediationFeeConfig where
  token_to_flat_fee : List (Nat × Nat)
  token_to_proportional_fee : List (Nat × Nat)
  cap_meditation_fees : Bool
  deriving DecidableEq, Repr

def MediationFeeConfig.get_flat_fee (c : MediationFeeConfig) (token_address : Nat) : Nat :=
  match c.token_to_flat_fee.find? (fun p => p.1 = token_address) with
  | some p => p.2
  | none => 0

def MediationFeeConfig.get_proportional_fee (c : MediationFeeConfig) (token_address : Nat) : Nat :=
  match c.token_to_proportional_fee.find? (fun p => p.1 = token_address) with
  | some p => p.2
  | none => 0

structure FeeScheduleState where
  cap_fees : Bool
  flat : Nat
  proportional : Nat
  imbalance_penalty : Option (List (Nat × Nat))
  deriving DecidableEq, Repr

structure HashTimeLockState where
  amount : Nat
  expiration : Nat
  secrethash : Nat
  encoded : List Nat
  deriving DecidableEq, Repr

structure UnlockPartialProofState where
  lock : HashTimeLockState
  secret : List Nat
  amount : Nat
  expiration : Nat
  secrethash : Nat
  encoded : List Nat
  deriving DecidableEq, Repr

structure ExpiredWithdrawState where
  total_withdraw : Nat
  expiration : Nat
  nonce : Nat
  deriving DecidableEq, Repr

structure PendingWithdrawState where
  total_withdraw : Nat
  expiration : Nat
  nonce : Nat
  deriving DecidableEq, Repr

structure PendingLocksState where
  locks : List (List Nat)
  deriving DecidableEq, Repr

structure BalanceProofState where
  nonce : Nat
  transferred_amount : Nat
  locked_amount : Nat
  locksroot : Nat
  canonical_identifier : CanonicalIdentifier
  balance_hash : Nat
  message_hash : Option Nat
  signature : Option (List Nat)
  sender : Option Nat
  deriving DecidableEq, Repr

structure ChannelEndState where
  address : Nat
  contract_balance : Nat
  onchain_total_withdraw : Nat
  withdraws_pending : List (Nat × PendingWithdrawState)
  withdraws_expired : List ExpiredWithdrawState
  secrethashes_to_lockedlocks : List (Nat × HashTimeLockState)
  secrethashes_to_unlockedlocks : List (Nat × UnlockPartialProofState)
  secrethashes_to_onchain_unlockedlocks : List (Nat × UnlockPartialProofState)
  balance_proof : Option BalanceProofState
  pending_locks : PendingLocksState
  onchain_locksroot : List Nat
  nonce : Nat
  deriving DecidableEq, Repr

/-- `ChannelEndState::new`. -/
def ChannelEndState.new (address : Nat) : ChannelEndState where
  address := address
  contract_balance := 0
  onchain_total_withdraw := 0
  withdraws_pending := []
  withdraws_expired := []
  secrethashes_to_lockedlocks := []
  secrethashes_to_unlockedlocks := []
  secrethashes_to_onchain_unlockedlocks := []
  balance_proof := none
  pending_locks := ⟨[]⟩
  onchain_locksroot := []
  nonce := 0

/-- `ChannelEndState::offchain_total_withdraw`: fold `max` over the pending
withdraws' `total_withdraw` values, starting from zero. -/
def ChannelEndState.offchain_total_withdraw (s : ChannelEndState) : Nat :=
  (s.withdraws_pending.map (fun w => w.2.total_withdraw)).foldl
    (fun a b => max a b) 0

/-- `ChannelEndState::total_withdraw`. -/
def ChannelEndState.total_withdraw (s : ChannelEndState) : Nat :=
  max s.offchain_total_withdraw s.onchain_total_withdraw

/-- `ChannelEndState::next_nonce`. -/
def ChannelEndState.next_nonce (s : ChannelEndState) : Nat :=
  s.nonce + 1

/-- `ChannelError` (error message elided). -/
structure ChannelError where
  deriving DecidableEq, Repr

structure ChannelState where
  canonical_identifier : CanonicalIdentifier
  token_address : Nat
  token_network_registry_address : Nat
  reveal_timeout : Nat
  settle_timeout : Nat
  fee_schedule : FeeScheduleState
  our_state : ChannelEndState
  partner_state : ChannelEndState
  open_transaction : TransactionExecutionStatus
  close_transaction : Option TransactionExecutionStatus
  settle_transaction : Option TransactionExecutionStatus
  update_transaction : Option TransactionExecutionStatus
  deriving DecidableEq, Repr

/-- `ChannelState::new` (state.rs, lines 187-230): reject
`reveal_timeout >= settle_timeout`, otherwise build the channel with fresh
end states and no close/settle/update transactions. -/
def ChannelState.new (canonical_identifier : CanonicalIdentifier) (token_address : Nat)
    (token_network_registry_address : Nat) (our_address : Nat) (partner_address : Nat)
    (reveal_timeout : Nat) (settle_timeout : Nat)
    (open_transaction : TransactionExecutionStatus) (fee_config : MediationFeeConfig) :
    Except ChannelError ChannelState :=
  if reveal_timeout ≥ settle_timeout then
    .error ⟨⟩
  else
    .ok
      { canonical_identifier := canonical_identifier
        token_address := token_address
        token_network_registry_address := token_network_registry_address
        reveal_timeout := reveal_timeout
        settle_timeout := settle_timeout
        our_state := ChannelEndState.new our_address
        partner_state := ChannelEndState.new partner_address
        open_transaction := open_transaction
        close_transaction := none
        settle_transaction := none
        update_transaction := none
        fee_schedule :=
          { cap_fees := fee_config.cap_meditation_fees
            flat := fee_config.get_flat_fee token_address
            proportional := fee_config.get_proportional_fee token_address
            imbalance_penalty := none } }

/-- `ChannelState::status` (state.rs, lines 232-260). -/
def ChannelState.status (c : ChannelState) : ChannelStatus :=
  match c.settle_transaction with
  | some settle_transaction =>
    let finished_successfully := settle_transaction.result = some .Success
    let running := settle_transaction.finished_block_number = none
    if finished_successfully then .Settled
    else if running then .Settling
    else .Unusable
  | none =>
    match c.close_transaction with
    | some close_transaction =>
      let finished_successfully := close_transaction.result = some .Success
      let running := close_transaction.finished_block_number = none
      if finished_successfully then .Closed
      else if running then .Closing
      else .Unusable
    | none => .Opened

/-- Checked `U256` subtraction: the `Sub` impl of the 256-bit unsigned type
panics on underflow; `none` models the panic. -/
def ckSub (a b : Nat) : Option Nat :=
  if b ≤ a then some (a - b) else none

/-- Checked `U256` addition: panics (here `none`) when the sum does not fit
in 256 bits. -/
def ckAdd (a b : Nat) : Option Nat :=
  if a + b < 2 ^ 256 then some (a + b) else none

/-- `ChannelState::capacity` (state.rs, lines 262-266):
`our.contract_balance - our.total_withdraw() + partner.contract_balance
 - partner.total_withdraw()`, evaluated left to right on checked `U256`
arithmetic. -/
def ChannelState.capacity (c : ChannelState) : Option Nat := do
  let x ← ckSub c.our_state.contract_balance c.our_state.total_withdraw
  let y ← ckAdd x c.partner_state.contract_balance
  ckSub y c.partner_state.total_withdraw

/-! ### Chain state and token networks (src/src/state_machine/types/state.rs) -/

structure QueueIdentifier where
  recipient : Nat
  canonical_identifier : CanonicalIdentifier
  deriving DecidableEq, Repr

/-- `Random` pseudo-random stream; only the persisted seed matters here. -/
structure Random where
  seed : Nat
  deriving DecidableEq, Repr

/-- `PaymentMappingState`; the `TransferTask` payloads play no role in any
claim and are elided to `Unit`. -/
structure PaymentMappingState where
  secrethashes_to_task : List (Nat × Unit)
  deriving DecidableEq, Repr

structure TokenNetworkGraphState where
  deriving DecidableEq, Repr

structure TokenNetworkState where
  address : Nat
  token_address : Nat
  network_graph : TokenNetworkGraphState
  channelidentifiers_to_channels : List (Nat × ChannelState)
  partneraddresses_to_channelidentifiers : List (Nat × List Nat)
  deriving DecidableEq, Repr

/-- `TokenNetworkState::new`. -/
def TokenNetworkState.new (address : Nat) (token_address : Nat) : TokenNetworkState where
  address := address
  token_address := token_address
  network_graph := ⟨⟩
  channelidentifiers_to_channels := []
  partneraddresses_to_channelidentifiers := []

structure TokenNetworkRegistryState where
  address : Nat
  tokennetworkaddresses_to_tokennetworks : List (Nat × TokenNetworkState)
  tokenaddresses_to_tokennetworkaddresses : List (Nat × Nat)
  deriving DecidableEq, Repr

/-- `TokenNetworkRegistryState::new`: index the given token networks by their
network address and by their token address. -/
def TokenNetworkRegistryState.new (address : Nat)
    (token_network_list : List TokenNetworkState) : TokenNetworkRegistryState where
  address := address
  tokennetworkaddresses_to_tokennetworks :=
    token_network_list.map (fun tn => (tn.address, tn))
  tokenaddresses_to_tokennetworkaddresses :=
    token_network_list.map (fun tn => (tn.token_address, tn.address))

/-- `ChainState`; outbound-queue payloads (`SendMessageEvent`) play no role in
any claim and are elided to `Unit`. -/
structure ChainState where
  chain_id : Nat
  block_number : Nat
  block_hash : Nat
  our_address : Nat
  identifiers_to_tokennetworkregistries : List (Nat × TokenNetworkRegistryState)
  queueids_to_queues : List (QueueIdentifier × List Unit)
  payment_mapping : PaymentMappingState
  pseudo_random_number_generator : Random
  deriving DecidableEq, Repr

/-- Modelled from the spec: `views::get_token_network_by_address` (the `views`
module is not among the provided sources) walks the registries of the chain
state and returns the token network registered under the given address. -/
def get_token_network_by_address (chain_state : ChainState)
    (token_network_address : Nat) : Option TokenNetworkState :=
  chain_state.identifiers_to_tokennetworkregistries.findSome? (fun r =>
    (r.2.tokennetworkaddresses_to_tokennetworks.find?
      (fun p => p.1 = token_network_address)).map (fun p => p.2))

/-! ### State changes (src/src/state_machine/types/state_change.rs) -/

/-- `ActionInitChain` as constructed by `StateManager::init_state`
(src/src/state.rs, lines 69-73). -/
structure ActionInitChainRec where
  chain_id : Nat
  our_address : Nat
  block_number : Nat
  deriving DecidableEq, Repr

structure ContractReceiveTokenNetworkRegistryRec where
  transaction_hash : Option Nat
  token_network_registry : TokenNetworkRegistryState
  block_number : Nat
  block_hash : Nat
  deriving DecidableEq, Repr

structure ContractReceiveChannelOpenedRec where
  transaction_hash : Option Nat
  block_number : Nat
  block_hash : Nat
  channel_state : ChannelState
  deriving DecidableEq, Repr

/-- The `StateChange` variants the claims exercise; the remaining variants of
the source enum play no role in any claim. -/
inductive StateChange
  | ActionInitChain (inner : ActionInitChainRec)
  | ContractReceiveTokenNetworkRegistry (inner : ContractReceiveTokenNetworkRegistryRec)
  | ContractReceiveChannelOpened (inner : ContractReceiveChannelOpenedRec)
  deriving DecidableEq, Repr

/-- The partner address recorded in a `ContractReceiveChannelOpened` state
change (`none` for the other variants). -/
def StateChange.partnerAddress : StateChange → Option Nat
  | .ContractReceiveChannelOpened r => some r.channel_state.partner_state.address
  | _ => none

/-! ### Chain event decoding (src/src/blockchain/decode.rs and
src/src/blockchain/events.rs) -/

/-- Modelled from the spec (the `constants` module is not among the provided
sources): `DEFAULT_REVEAL_TIMEOUT = 50`, the spec's reveal-timeout value. -/
def DEFAULT_REVEAL_TIMEOUT : Nat := 50

/-- `RaidenConfig`, reduced to the part the decoder reads (the config type is
not among the provided sources; per the spec it carries the mediation-fee
options). -/
structure RaidenConfig where
  mediation_config : MediationFeeConfig
  deriving DecidableEq, Repr

/-- `DecodeError` (message elided). -/
structure DecodeError where
  deriving DecidableEq, Repr

/-- `Event` as consumed by `EventDecoder` (decode.rs): decoded parameters
keyed by name. -/
structure EventRec where
  name : String
  address : Nat
  block_number : Nat
  block_hash : Nat
  transaction_hash : Nat
  data : List (String × Token)
  deriving DecidableEq, Repr

def eventDataGet (data : List (String × Token)) (key : String) : Option Token :=
  (data.find? (fun p => p.1 = key)).map (fun p => p.2)

/-- The tail of `EventDecoder::channel_opened` (decode.rs, lines 139-174),
from the token-network lookup on: factored into its own definition so the
theorems can reason about it directly; the control flow is the source's. -/
def channel_opened_build (config : RaidenConfig) (chain_state : ChainState)
    (event : EventRec) (channel_identifier settle_timeout partner_address : Nat) :
    Except DecodeError (Option StateChange) :=
  match get_token_network_by_address chain_state event.address with
  | none => .error ⟨⟩
  | some token_network =>
    let token_address := token_network.token_address
    let token_network_registry_address := 0
    let reveal_timeout := DEFAULT_REVEAL_TIMEOUT
    let open_transaction : TransactionExecutionStatus :=
      { started_block_number := some 0
        finished_block_number := some event.block_number
        result := some .Success }
    match ChannelState.new
        ⟨chain_state.chain_id, event.address, channel_identifier⟩
        token_address token_network_registry_address chain_state.our_address
        partner_address reveal_timeout settle_timeout open_transaction
        config.mediation_config with
    | .error _ => .error ⟨⟩
    | .ok channel_state =>
      .ok (some (.ContractReceiveChannelOpened
        { transaction_hash := some event.transaction_hash
          block_number := event.block_number
          block_hash := event.block_hash
          channel_state := channel_state }))

/-- `EventDecoder::channel_opened` (decode.rs, lines 103-175): extract the
channel identifier, both participants and the settle timeout (error on a
missing or ill-typed parameter), ignore the event unless `our_address` is one
of the participants, resolve the token network, and build the channel via
`ChannelState::new`. -/
def channel_opened (config : RaidenConfig) (chain_state : ChainState)
    (event : EventRec) : Except DecodeError (Option StateChange) :=
  match eventDataGet event.data ("channel_identifier") with
  | some (.uint channel_identifier) =>
    match eventDataGet event.data ("participant1") with
    | some (.address participant1) =>
      match eventDataGet event.data ("participant2") with
      | some (.address participant2) =>
        match eventDataGet event.data ("settle_timeout") with
        | some (.uint timeout) =>
          let settle_timeout := timeout % 2 ^ 64
          let our_address := chain_state.our_address
          let partnerChoice : Option Nat :=
            if our_address = participant1 then some participant2
            else if our_address = participant2 then some participant1
            else none
          match partnerChoice with
          | none => .ok none
          | some partner_address =>
            channel_opened_build config chain_state event channel_identifier
              settle_timeout partner_address
        | _ => .error ⟨⟩
      | _ => .error ⟨⟩
    | _ => .error ⟨⟩
  | _ => .error ⟨⟩

/-- `match token { Token::Uint(x) => x, _ => U256::zero() }`. -/
def tokenUintOrZero : Token → Nat
  | .uint x => x
  | _ => 0

/-- `match token { Token::Address(a) => a, _ => Address::zero() }`. -/
def tokenAddressOrZero : Token → Nat
  | .address a => a
  | _ => 0

/-- `Event` of the older revision (events.rs): decoded parameters by
position. -/
structure EventOld where
  name : String
  address : Nat
  block_number : Nat
  block_hash : Nat
  transaction_hash : Nat
  data : List Token
  deriving DecidableEq, Repr

/-- Modelled from the spec (older source revision): the `ChannelState::new`
called by events.rs takes no fee configuration but performs the same
reveal/settle-timeout validation; modelled as the current constructor with an
empty fee configuration. -/
def ChannelState.newLegacy (canonical_identifier : CanonicalIdentifier)
    (token_address : Nat) (token_network_registry_address : Nat)
    (our_address : Nat) (partner_address : Nat) (reveal_timeout : Nat)
    (settle_timeout : Nat) (open_transaction : TransactionExecutionStatus) :
    Except ChannelError ChannelState :=
  ChannelState.new canonical_identifier token_address token_network_registry_address
    our_address partner_address reveal_timeout settle_timeout open_transaction
    ⟨[], [], true⟩

/-- `Event::create_channel_opened_state_change` (events.rs, lines 118-183).
The source indexes `data[0] .. data[3]` (panicking when the vector is
shorter; the claims only use full-length data, so the model defaults the
out-of-range case to a zero uint) and — unlike decode.rs — selects the
partner UNCONDITIONALLY: `participant2` when `participant1 == our_address`,
otherwise `participant1`; the participant check is commented out in the
source. -/
def create_channel_opened_state_change (ev : EventOld) (our_address : Nat) :
    Option StateChange :=
  let channel_identifier := tokenUintOrZero (ev.data.getD 0 (.uint 0))
  let participant1 := tokenAddressOrZero (ev.data.getD 1 (.uint 0))
  let participant2 := tokenAddressOrZero (ev.data.getD 2 (.uint 0))
  let settle_timeout := tokenUintOrZero (ev.data.getD 3 (.uint 0))
  let partner_address := if participant1 = our_address then participant2 else participant1
  let chain_identifier := 1
  let token_network_address := ev.address
  let token_address := 0
  let token_network_registry_address := 0
  let reveal_timeout := DEFAULT_REVEAL_TIMEOUT
  let open_transaction : TransactionExecutionStatus :=
    { started_block_number := some 0
      finished_block_number := some ev.block_number
      result := some .Success }
  match ChannelState.newLegacy
      ⟨chain_identifier, token_network_address, channel_identifier⟩
      token_address token_network_registry_address our_address partner_address
      reveal_timeout settle_timeout open_transaction with
  | .error _ => none
  | .ok channel_state =>
    some (.ContractReceiveChannelOpened
      { transaction_hash := some ev.transaction_hash
        block_number := ev.block_number
        block_hash := ev.block_hash
        channel_state := channel_state })

/-! ### Storage and the state manager (src/src/state.rs)

The `storage` module is not among the provided sources; its operations are
modelled from the spec, §4.4: an append-only `state_changes` log, an `events`
log keyed by the state-change id, and a `snapshots` table, with monotone ids
standing in for ULIDs.  Serde serialisation round-trips are modelled as the
identity.  The reducer `chain::state_transition` is likewise not among the
provided sources and enters as a parameter of type `Reducer`. -/

/-- Reducer events are opaque for every claim. -/
abbrev ReducerEvent := Nat

structure StateChangeRecord where
  identifier : Nat
  data : StateChange
  deriving DecidableEq, Repr

structure EventRecordRow where
  state_change_identifier : Nat
  data : ReducerEvent
  deriving DecidableEq, Repr

structure SnapshotRecord where
  identifier : Nat
  state_change_identifier : Nat
  data : ChainState
  deriving DecidableEq, Repr

structure Storage where
  snapshots : List SnapshotRecord
  state_changes_rows : List StateChangeRecord
  events_rows : List EventRecordRow
  deriving DecidableEq, Repr

structure StorageError where
  deriving DecidableEq, Repr

structure StateTransitionError where
  deriving DecidableEq, Repr

structure RaidenError where
  deriving DecidableEq, Repr

/-- Modelled from the spec: `get_snapshot_before(id) → snapshot` returns the
latest stored snapshot whose state-change id does not exceed `id`, and an
error when there is none. -/
def Storage.get_snapshot_before_state_change (s : Storage) (state_change_id : Nat) :
    Except StorageError SnapshotRecord :=
  match (s.snapshots.filter (fun r => r.state_change_identifier ≤ state_change_id)).getLast? with
  | some snapshot => .ok snapshot
  | none => .error ⟨⟩

/-- Modelled from the spec: `store_state_change(sc) → id` appends the record
and returns its fresh id. -/
def Storage.store_state_change (s : Storage) (state_change : StateChange) :
    Storage × Nat :=
  let id := s.state_changes_rows.length + 1
  ({ s with state_changes_rows := s.state_changes_rows ++ [⟨id, state_change⟩] }, id)

/-- Modelled from the spec: `store_events(state_change_id, events)` appends
one event row per event, keyed by the state-change id. -/
def Storage.store_events (s : Storage) (state_change_id : Nat)
    (events : List ReducerEvent) : Storage :=
  { s with events_rows := s.events_rows ++ events.map (fun e => ⟨state_change_id, e⟩) }

/-- Modelled from the spec: `state_changes()` returns every stored
state-change record in insertion order. -/
def Storage.state_changes (s : Storage) : List StateChangeRecord :=
  s.state_changes_rows

/-- The reducer `chain::state_transition` (not among the provided sources):
`(state?, state_change) → (new_state, events)` or a transition error. -/
abbrev Reducer := Option ChainState → StateChange → Except Unit (ChainState × List ReducerEvent)

structure StateManager where
  storage : Storage
  current_state : Option ChainState
  deriving DecidableEq, Repr

/-- `StateManager::dispatch` (state.rs, lines 107-119): run the reducer on the
current state; on success replace the in-memory state and return the events,
on failure leave the state untouched. -/
def StateManager.dispatch (red : Reducer) (sm : StateManager)
    (state_change : StateChange) :
    Except StateTransitionError (StateManager × List ReducerEvent) :=
  match red sm.current_state state_change with
  | .ok (new_state, events) => .ok ({ sm with current_state := some new_state }, events)
  | .error _ => .error ⟨⟩

/-- `StateManager::restore_state` (state.rs, lines 98-105): set the in-memory
state to the deserialised snapshot.  Nothing else happens. -/
def StateManager.restore_state (sm : StateManager) (snapshot : SnapshotRecord) :
    StateManager :=
  { sm with current_state := some snapshot.data }

/-- `StateManager::init_state` (state.rs, lines 62-96): dispatch
`ActionInitChain` (block number 1), then a `ContractReceiveTokenNetworkRegistry`
bootstrap for the given registry address, then dispatch every stored
state-change record, ignoring individual dispatch failures. -/
def StateManager.init_state (red : Reducer) (sm : StateManager) (chain_id : Nat)
    (our_address : Nat) (token_network_registry_address : Nat)
    (token_network_registry_deploy_block_number : Nat) :
    Except RaidenError StateManager :=
  let init_chain : ActionInitChainRec :=
    { chain_id := chain_id, our_address := our_address, block_number := 1 }
  match sm.dispatch red (.ActionInitChain init_chain) with
  | .error _ => .error ⟨⟩
  | .ok (sm1, _) =>
    let token_network_registry_state :=
      TokenNetworkRegistryState.new token_network_registry_address []
    let new_network_registry_state_change : ContractReceiveTokenNetworkRegistryRec :=
      { transaction_hash := some 0
        token_network_registry := token_network_registry_state
        block_number := token_network_registry_deploy_block_number
        block_hash := 0 }
    match sm1.dispatch red
        (.ContractReceiveTokenNetworkRegistry new_network_registry_state_change) with
    | .error _ => .error ⟨⟩
    | .ok (sm2, _) =>
      .ok (sm2.storage.state_changes.foldl
        (fun acc record =>
          match acc.dispatch red record.data with
          | .ok (sm', _) => sm'
          | .error _ => acc)
        sm2)

/-- `StateManager::restore_or_init_state` (state.rs, lines 31-60): when any
snapshot exists, ONLY `restore_state` runs (the source comment announces
replaying the state changes recorded after the snapshot, but no replay code
exists); otherwise `init_state` runs. -/
def StateManager.restore_or_init_state (red : Reducer) (sm : StateManager)
    (chain_id : Nat) (our_address : Nat) (token_network_registry_address : Nat)
    (token_network_registry_deploy_block_number : Nat) :
    Except RaidenError StateManager :=
  match sm.storage.get_snapshot_before_state_change (2 ^ 128 - 1) with
  | .ok snapshot => .ok (sm.restore_state snapshot)
  | .error _ =>
    sm.init_state red chain_id our_address token_network_registry_address
      token_network_registry_deploy_block_number

/-- `StateManager::transition` (state.rs, lines 121-139): store the state
change, dispatch it through the reducer, then store the produced events —
three separate storage interactions with early returns in between, no
enclosing database transaction.  The function returns the state manager as
left behind by whichever steps ran. -/
def StateManager.transition (red : Reducer) (sm : StateManager)
    (state_change : StateChange) :
    StateManager × Except StateTransitionError (List ReducerEvent) :=
  let (storage1, state_change_id) := sm.storage.store_state_change state_change
  let sm1 := { sm with storage := storage1 }
  match sm1.dispatch red state_change with
  | .error e => (sm1, .error e)
  | .ok (sm2, events) =>
    let storage2 := sm2.storage.store_events state_change_id events
    ({ sm2 with storage := storage2 }, .ok events)

/-- Modelled from the spec, §4.4 recovery algorithm (refinement comparison
definition for the replay claim): load the latest snapshot, set the state to
it, then replay every state change recorded after `snapshot.state_change_id`
through the reducer, discarding events (a change the reducer rejects leaves
the state unchanged). -/
def spec_restore (red : Reducer) (storage : Storage) : Option ChainState :=
  match storage.get_snapshot_before_state_change (2 ^ 128 - 1) with
  | .error _ => none
  | .ok snapshot =>
    some ((storage.state_changes_rows.filter
        (fun r => snapshot.state_change_identifier < r.identifier)).foldl
      (fun st record =>
        match red (some st) record.data with
        | .ok (new_state, _) => new_state
        | .error _ => st)
      snapshot.data)

/-! ### Concrete sample values used by witnesses and counterexamples -/

def ciSample : CanonicalIdentifier := ⟨1, 2, 3⟩

def emptyFeeConfig : MediationFeeConfig := ⟨[], [], true⟩

def chainState5 : ChainState where
  chain_id := 1
  block_number := 5
  block_hash := 0
  our_address := 9
  identifiers_to_tokennetworkregistries := []
  queueids_to_queues := []
  payment_mapping := ⟨[]⟩
  pseudo_random_number_generator := ⟨0⟩

/-- A reducer instance that bumps the block number on every state change. -/
def bumpBlock : Reducer := fun st _ =>
  match st with
  | some s => .ok ({ s with block_number := s.block_number + 1 }, [])
  | none => .ok (chainState5, [])

/-- A storage holding one snapshot (taken at state-change id 1) and one
state change recorded after it (id 2). -/
def storageWithSnapshot : Storage where
  snapshots := [⟨1, 1, chainState5⟩]
  state_changes_rows := [⟨2, .ActionInitChain ⟨1, 9, 1⟩⟩]
  events_rows := []

def smWithSnapshot : StateManager := ⟨storageWithSnapshot, none⟩

/-- A reducer instance that rejects every state change. -/
def failingReducer : Reducer := fun _ _ => .error ()

def emptyStorage : Storage := ⟨[], [], []⟩

def smEmpty : StateManager := ⟨emptyStorage, none⟩

def scInit : StateChange := .ActionInitChain ⟨1, 9, 1⟩

/-- A ChannelOpened event (old events.rs form) between participants 1 and 2,
settle timeout 500, channel id 7, on token network 11. -/
def eventOldSample : EventOld where
  name := ("ChannelOpened")
  address := 11
  block_number := 3
  block_hash := 0
  transaction_hash := 0
  data := [.uint 7, .address 1, .address 2, .uint 500]

/-- The same ChannelOpened event in the decode.rs form. -/
def eventRecSample : EventRec where
  name := ("ChannelOpened")
  address := 11
  block_number := 3
  block_hash := 0
  transaction_hash := 0
  data :=
    [(("channel_identifier"), .uint 7), (("participant1"), .address 1),
     (("participant2"), .address 2), (("settle_timeout"), .uint 500)]

def configSample : RaidenConfig := ⟨emptyFeeConfig⟩

/-- A chain state whose address is participant 1 and which knows token
network 11. -/
def chainStateOur1 : ChainState where
  chain_id := 1
  block_number := 5
  block_hash := 0
  our_address := 1
  identifiers_to_tokennetworkregistries :=
    [(21, TokenNetworkRegistryState.new 21 [TokenNetworkState.new 11 31])]
  queueids_to_queues := []
  payment_mapping := ⟨[]⟩
  pseudo_random_number_generator := ⟨0⟩

def constKeccak : List Nat → List Nat := fun _ => List.replicate 32 0

def constRawSign : List Nat → EcdsaSig := fun _ => ⟨1, 2, 1⟩

def endOur100 : ChannelEndState :=
  { ChannelEndState.new 1 with contract_balance := 100 }

/-- A partner end whose on-chain withdraw (50) exceeds its contract balance
(0). -/
def endPartnerOver : ChannelEndState :=
  { ChannelEndState.new 2 with onchain_total_withdraw := 50 }

def channelOver : ChannelState where
  canonical_identifier := ⟨1, 11, 7⟩
  token_address := 31
  token_network_registry_address := 21
  reveal_timeout := 50
  settle_timeout := 500
  fee_schedule := ⟨true, 0, 0, none⟩
  our_state := endOur100
  partner_state := endPartnerOver
  open_transaction := ⟨some 0, some 3, some .Success⟩
  close_transaction := none
  settle_transaction := none
  update_transaction := none

def endOurOk : ChannelEndState :=
  { ChannelEndState.new 1 with contract_balance := 100, onchain_total_withdraw := 10 }

def endPartnerOk : ChannelEndState :=
  { ChannelEndState.new 2 with contract_balance := 50, onchain_total_withdraw := 20 }

def channelOk : ChannelState :=
  { channelOver with our_state := endOurOk, partner_state := endPartnerOk }

def settledTx : TransactionExecutionStatus := ⟨some 0, some 9, some .Success⟩

def channelSettled : ChannelState :=
  { channelOk with settle_transaction := some settledTx }

/-! ## Theorems -/

theorem beBytes_length (n x : Nat) : (beBytes n x).length = n := by
  induction n generalizing x with
  | zero => rfl
  | succ n ih => simp [beBytes, ih]

theorem beBytes_zero (n : Nat) : beBytes n 0 = List.replicate n 0 := by
  induction n with
  | zero => rfl
  | succ n ih => simp [beBytes, ih, List.replicate_succ']

theorem beBytes_high_zero (n m x : Nat) (h : x < 256 ^ m) :
    beBytes (n + m) x = List.replicate n 0 ++ beBytes m x := by
  induction m generalizing x with
  | zero =>
    have hx : x = 0 := by omega
    subst hx
    simpa [beBytes] using beBytes_zero n
  | succ m ih =>
    have hdiv : x / 256 < 256 ^ m := by
      have h256 : (0 : Nat) < 256 := by norm_num
      rw [Nat.div_lt_iff_lt_mul h256]
      calc x < 256 ^ (m + 1) := h
        _ = 256 ^ m * 256 := by rw [Nat.pow_succ]
    calc beBytes (n + (m + 1)) x
        = beBytes (n + m) (x / 256) ++ [x % 256] := rfl
      _ = (List.replicate n 0 ++ beBytes m (x / 256)) ++ [x % 256] := by
          rw [ih _ hdiv]
      _ = List.replicate n 0 ++ beBytes (m + 1) x := by
          simp [beBytes]

/-- Claim C5 (confirmed): `pack_balance_proof` returns exactly
`token_network_address(20) ‖ chain_id(32) ‖ msg_type(32) ‖ channel_id(32) ‖
balance_hash(32) ‖ nonce(32) ‖ additional_hash(32)`, every numeric field a
32-byte big-endian word, 212 bytes in total. -/
theorem pack_balance_proof_layout (nonce balance_hash additional_hash : Nat)
    (ci : CanonicalIdentifier) (msg_type : MessageTypeId) :
    pack_balance_proof nonce balance_hash additional_hash ci msg_type =
      beBytes 20 ci.token_network_address ++ beBytes 32 ci.chain_identifier
        ++ beBytes 32 msg_type.toU8 ++ beBytes 32 ci.channel_identifier
        ++ beBytes 32 balance_hash ++ beBytes 32 nonce
        ++ beBytes 32 additional_hash ∧
    (pack_balance_proof nonce balance_hash additional_hash ci msg_type).length = 212 := by
  constructor
  · simp [pack_balance_proof, ethabiEncode, abiWord]
  · simp [pack_balance_proof, ethabiEncode, abiWord, beBytes_length]

set_option maxRecDepth 4000 in
/-- Claim C4, counterexample: at chain id 1, token network address 2, channel
id 3, participant 4, withdraw 5, expiration 6, `pack_withdraw` yields 192
bytes, not the 168-byte layout with bare 20-byte addresses the claim
asserts. -/
theorem pack_withdraw_not_spec_layout :
    (pack_withdraw ciSample 4 5 6).length = 192 ∧
    (withdrawSpecLayout ciSample 4 5 6).length = 168 ∧
    pack_withdraw ciSample 4 5 6 ≠ withdrawSpecLayout ciSample 4 5 6 := by
  refine ⟨?_, ?_, ?_⟩ <;> decide

/-- Claim C4 (amended): `pack_withdraw` ABI-encodes its six fields as 32-byte
big-endian words — `token_network_address` and `participant` are left-padded
with 12 zero bytes rather than packed as bare 20-byte fields — for a total of
192 bytes. -/
theorem pack_withdraw_layout (ci : CanonicalIdentifier)
    (participant total_withdraw expiration_block : Nat) :
    pack_withdraw ci participant total_withdraw expiration_block =
      beBytes 32 ci.token_network_address ++ beBytes 32 ci.chain_identifier
        ++ beBytes 32 ci.channel_identifier ++ beBytes 32 participant
        ++ beBytes 32 total_withdraw ++ beBytes 32 expiration_block ∧
    (pack_withdraw ci participant total_withdraw expiration_block).length = 192 ∧
    (participant < 2 ^ 160 →
      beBytes 32 participant = List.replicate 12 0 ++ beBytes 20 participant) := by
  refine ⟨?_, ?_, ?_⟩
  · simp [pack_withdraw, ethabiEncode, abiWord]
  · simp [pack_withdraw, ethabiEncode, abiWord, beBytes_length]
  · intro h
    have h' : participant < 256 ^ 20 := by
      have : (256 : Nat) ^ 20 = 2 ^ 160 := by norm_num
      omega
    exact beBytes_high_zero 12 20 participant h'

/-- Witness for the amended claim C4: the padding equation at participant 4. -/
theorem pack_withdraw_layout_witness :
    (4 : Nat) < 2 ^ 160 ∧
    beBytes 32 4 = List.replicate 12 0 ++ beBytes 20 4 :=
  ⟨by norm_num, (pack_withdraw_layout ciSample 4 5 6).2.2 (by norm_num)⟩

/-- Claim C6 (confirmed): `sign_message` signs the keccak-256 of
`"\x19Ethereum Signed Message:\n" ‖ decimal-length ‖ payload` and normalizes
`v` to `raw_v + 27` (so to `{27, 28}` for the raw recovery values `{0, 1}`),
while chain-bound `sign` yields `v = 35 + 2·chain_id + recovery_id`. -/
theorem signing_framing_and_v_normalization (keccak : List Nat → List Nat)
    (rawSign : List Nat → EcdsaSig) (message : List Nat) (cid : Nat) :
    sign_message keccak rawSign message =
      ⟨(rawSign (keccak (prefixMsgBytes ++ lenAscii message.length ++ message))).r,
       (rawSign (keccak (prefixMsgBytes ++ lenAscii message.length ++ message))).s,
       (rawSign (keccak (prefixMsgBytes ++ lenAscii message.length ++ message))).v + 27⟩ ∧
    (key_sign rawSign message (some cid)).v = 35 + 2 * cid + (rawSign message).v ∧
    (key_sign rawSign message none).v = (rawSign message).v + 27 ∧
    ((rawSign (hash_data keccak message)).v ≤ 1 →
      (sign_message keccak rawSign message).v = 27 ∨
      (sign_message keccak rawSign message).v = 28) := by
  refine ⟨rfl, ?_, rfl, ?_⟩
  · simp [key_sign]; omega
  · intro h
    simp [sign_message]
    omega

/-- Witness for claim C6: with a raw signer returning recovery value 1, the
normalized `v` lands in `{27, 28}`. -/
theorem signing_framing_witness :
    (constRawSign (hash_data constKeccak [5])).v ≤ 1 ∧
    ((sign_message constKeccak constRawSign [5]).v = 27 ∨
     (sign_message constKeccak constRawSign [5]).v = 28) :=
  ⟨by decide,
   (signing_framing_and_v_normalization constKeccak constRawSign [5] 0).2.2.2 (by decide)⟩

/-- Claim C7 (code bug): `recover` never applies the personal-message framing
— the `hashed_data` it computes is dead and the raw `data` is handed to
`web3::signing::recover`, whose 32-byte message parse then fails for any
payload that is not exactly 32 bytes.  In particular
`recover(m, sign_message(k, m))` errors for the 3-byte message `[1, 2, 3]`
instead of returning the signer, and the result is independent of the hash
function (the framing is provably unused). -/
theorem recover_unframed_roundtrip_fails (recoverPoint : List Nat → List Nat → Nat → Nat)
    (keccak keccak' : List Nat → List Nat) (rawSign : List Nat → EcdsaSig)
    (signature : List Nat) :
    recover recoverPoint keccak [1, 2, 3] signature = .error .mk ∧
    recover recoverPoint keccak [1, 2, 3]
      (signature_to_bytes (sign_message keccak rawSign [1, 2, 3])) = .error .mk ∧
    (∀ data sig, recover recoverPoint keccak data sig =
      recover recoverPoint keccak' data sig) := by
  refine ⟨?_, ?_, ?_⟩
  · simp [recover, web3_recover]
  · simp [recover, web3_recover]
  · intro data sig
    rfl

/-- Claim C8 (confirmed): `status()` is derived: a settle transaction yields
Settled on success, Settling while unfinished, Unusable otherwise; failing
that, a close transaction yields Closed/Closing/Unusable the same way;
with neither, the channel is Opened. -/
theorem channel_status_derived (c : ChannelState) :
    (∀ st, c.settle_transaction = some st →
      ((st.result = some .Success → c.status = .Settled) ∧
       (st.result ≠ some .Success → st.finished_block_number = none →
          c.status = .Settling) ∧
       (st.result ≠ some .Success → st.finished_block_number ≠ none →
          c.status = .Unusable))) ∧
    (c.settle_transaction = none →
      ∀ ct, c.close_transaction = some ct →
        ((ct.result = some .Success → c.status = .Closed) ∧
         (ct.result ≠ some .Success → ct.finished_block_number = none →
            c.status = .Closing) ∧
         (ct.result ≠ some .Success → ct.finished_block_number ≠ none →
            c.status = .Unusable))) ∧
    (c.settle_transaction = none → c.close_transaction = none →
      c.status = .Opened) := by
  refine ⟨?_, ?_, ?_⟩
  · intro st hst
    refine ⟨?_, ?_, ?_⟩
    · intro hres
      simp [ChannelState.status, hst, hres]
    · intro hres hfin
      simp [ChannelState.status, hst, hres, hfin]
    · intro hres hfin
      simp [ChannelState.status, hst, hres, hfin]
  · intro hst ct hct
    refine ⟨?_, ?_, ?_⟩
    · intro hres
      simp [ChannelState.status, hst, hct, hres]
    · intro hres hfin
      simp [ChannelState.status, hst, hct, hres, hfin]
    · intro hres hfin
      simp [ChannelState.status, hst, hct, hres, hfin]
  · intro hst hct
    simp [ChannelState.status, hst, hct]

/-- Witness for claim C8: a channel with a successful settle transaction is
Settled. -/
theorem channel_status_derived_witness :
    channelSettled.settle_transaction = some settledTx ∧
    channelSettled.status = .Settled :=
  ⟨rfl, ((channel_status_derived channelSettled).1 settledTx rfl).1 rfl⟩

/-- Claim C9 (confirmed): `ChannelState::new` errors exactly when
`reveal_timeout ≥ settle_timeout` and otherwise returns the freshly built
channel. -/
theorem reveal_timeout_validation (ci : CanonicalIdentifier)
    (token_address tnra our partner reveal settle : Nat)
    (otx : TransactionExecutionStatus) (cfg : MediationFeeConfig) :
    (settle ≤ reveal →
      ChannelState.new ci token_address tnra our partner reveal settle otx cfg
        = .error ⟨⟩) ∧
    (reveal < settle →
      ∃ ch,
        ChannelState.new ci token_address tnra our partner reveal settle otx cfg
          = .ok ch ∧
        ch.reveal_timeout = reveal ∧ ch.settle_timeout = settle ∧
        ch.our_state = ChannelEndState.new our ∧
        ch.partner_state = ChannelEndState.new partner) := by
  constructor
  · intro h
    simp [ChannelState.new, h]
  · intro h
    have h' : ¬ reveal ≥ settle := by omega
    simp [ChannelState.new, h']

/-- Witness for claim C9: `reveal_timeout = settle_timeout = 50` is rejected
(and 49 against 50 is accepted). -/
theorem reveal_timeout_validation_witness :
    ((50 : Nat) ≤ 50 ∧
      ChannelState.new ciSample 31 21 1 2 50 50 settledTx emptyFeeConfig
        = .error ⟨⟩) ∧
    ((49 : Nat) < 50 ∧
      ∃ ch, ChannelState.new ciSample 31 21 1 2 49 50 settledTx emptyFeeConfig
          = .ok ch ∧
        ch.reveal_timeout = 49 ∧ ch.settle_timeout = 50 ∧
        ch.our_state = ChannelEndState.new 1 ∧
        ch.partner_state = ChannelEndState.new 2) :=
  ⟨⟨by omega,
    (reveal_timeout_validation ciSample 31 21 1 2 50 50 settledTx emptyFeeConfig).1
      (by omega)⟩,
   ⟨by omega,
    (reveal_timeout_validation ciSample 31 21 1 2 49 50 settledTx emptyFeeConfig).2
      (by omega)⟩⟩

/-- Claim C10, counterexample: a channel whose partner side violates the
claimed precondition (`total_withdraw = 50 > 0 = contract_balance`) on which
`capacity()` nevertheless evaluates without underflow (to 50), because the
left-to-right evaluation only subtracts the partner withdraw from the running
sum. -/
theorem capacity_defined_outside_precondition :
    ChannelState.capacity channelOver = some 50 ∧
    channelOver.partner_state.contract_balance <
      channelOver.partner_state.total_withdraw := by
  constructor
  · decide
  · decide

/-- Claim C10 (amended): under the claimed precondition (each side's
`total_withdraw` bounded by its `contract_balance`) and absent 256-bit
overflow of the running sum, `capacity()` is defined and equals
`(our.contract_balance − our.total_withdraw) +
(partner.contract_balance − partner.total_withdraw)`; the OUR-side bound is
necessary — its violation underflows the first subtraction (the panic the
claim describes) — but the partner-side bound is not. -/
theorem capacity_checked (c : ChannelState) :
    (c.our_state.total_withdraw ≤ c.our_state.contract_balance →
     c.partner_state.total_withdraw ≤ c.partner_state.contract_balance →
     c.our_state.contract_balance + c.partner_state.contract_balance < 2 ^ 256 →
     c.capacity = some ((c.our_state.contract_balance - c.our_state.total_withdraw)
        + (c.partner_state.contract_balance - c.partner_state.total_withdraw))) ∧
    (c.our_state.contract_balance < c.our_state.total_withdraw →
      c.capacity = none) := by
  constructor
  · intro h1 h2 h3
    have h4 : c.partner_state.total_withdraw ≤
        c.our_state.contract_balance - c.our_state.total_withdraw
          + c.partner_state.contract_balance := by omega
    have h5 : c.our_state.contract_balance - c.our_state.total_withdraw
        + c.partner_state.contract_balance < 2 ^ 256 := by omega
    have e1 : ckSub c.our_state.contract_balance c.our_state.total_withdraw
        = some (c.our_state.contract_balance - c.our_state.total_withdraw) := by
      unfold ckSub; rw [if_pos h1]
    have e2 : ckAdd (c.our_state.contract_balance - c.our_state.total_withdraw)
          c.partner_state.contract_balance
        = some (c.our_state.contract_balance - c.our_state.total_withdraw
            + c.partner_state.contract_balance) := by
      unfold ckAdd; rw [if_pos h5]
    have e3 : ckSub (c.our_state.contract_balance - c.our_state.total_withdraw
            + c.partner_state.contract_balance) c.partner_state.total_withdraw
        = some (c.our_state.contract_balance - c.our_state.total_withdraw
            + c.partner_state.contract_balance - c.partner_state.total_withdraw) := by
      unfold ckSub; rw [if_pos h4]
    simp [ChannelState.capacity, e1, e2, e3]
    omega
  · intro h1
    have h2 : ¬ c.our_state.total_withdraw ≤ c.our_state.contract_balance := by omega
    simp [ChannelState.capacity, ckSub, h2]

/-- Witness for the amended claim C10: a channel satisfying the precondition
(balances 100/50, withdraws 10/20) has capacity 90 + 30. -/
theorem capacity_checked_witness :
    (channelOk.our_state.total_withdraw ≤ channelOk.our_state.contract_balance) ∧
    (channelOk.partner_state.total_withdraw ≤
      channelOk.partner_state.contract_balance) ∧
    (channelOk.our_state.contract_balance + channelOk.partner_state.contract_balance
      < 2 ^ 256) ∧
    channelOk.capacity = some ((channelOk.our_state.contract_balance
        - channelOk.our_state.total_withdraw)
      + (channelOk.partner_state.contract_balance
        - channelOk.partner_state.total_withdraw)) :=
  ⟨by decide, by decide, by norm_num [channelOk, endOurOk, endPartnerOk],
   (capacity_checked channelOk).1 (by decide) (by decide)
     (by norm_num [channelOk, endOurOk, endPartnerOk])⟩

/-- Claim C1 (code bug): with a snapshot present, `restore_or_init_state`
returns the deserialised snapshot UNCHANGED — the state change stored after
the snapshot (id 2 > snapshot id 1) is never replayed, although the source
comment and the spec's recovery algorithm demand it (here the reducer bumps
the block number, so the spec-modelled recovery ends one block later). -/
theorem restore_or_init_state_skips_replay :
    (StateManager.restore_or_init_state bumpBlock smWithSnapshot 1 9 21 0).toOption.map
        (fun sm => sm.current_state) = some (some chainState5) ∧
    spec_restore bumpBlock storageWithSnapshot
        = some { chainState5 with block_number := 6 } ∧
    some chainState5 ≠ some { chainState5 with block_number := 6 } := by
  refine ⟨?_, ?_, ?_⟩ <;> decide

/-- Claim C2, counterexample: a reducer failure inside `transition` leaves
the state change persisted with NO events stored for it — the commit is not
atomic. -/
theorem transition_not_atomic :
    (StateManager.transition failingReducer smEmpty scInit).1.storage.state_changes_rows
        = [⟨1, scInit⟩] ∧
    (StateManager.transition failingReducer smEmpty scInit).1.storage.events_rows = [] ∧
    (StateManager.transition failingReducer smEmpty scInit).2 = .error ⟨⟩ := by
  refine ⟨rfl, rfl, rfl⟩

/-- Claim C2 (amended): `transition` always persists the state change first;
on a failed dispatch no events are stored (the state change stays persisted
without events), and on success exactly the produced events are stored, each
keyed by the id of that state change — so events are never persisted without
their state change, but the converse can happen. -/
theorem transition_persistence (red : Reducer) (sm : StateManager) (sc : StateChange) :
    (StateManager.transition red sm sc).1.storage.state_changes_rows
        = sm.storage.state_changes_rows
          ++ [⟨sm.storage.state_changes_rows.length + 1, sc⟩] ∧
    ((StateManager.transition red sm sc).2 = .error ⟨⟩ →
        (StateManager.transition red sm sc).1.storage.events_rows
          = sm.storage.events_rows) ∧
    (∀ evs, (StateManager.transition red sm sc).2 = .ok evs →
        (StateManager.transition red sm sc).1.storage.events_rows
          = sm.storage.events_rows
            ++ evs.map (fun ev => ⟨sm.storage.state_changes_rows.length + 1, ev⟩)) := by
  cases h : red sm.current_state sc with
  | ok p =>
    refine ⟨?_, ?_, ?_⟩ <;>
      simp [StateManager.transition, StateManager.dispatch,
        Storage.store_state_change, Storage.store_events, h]
  | error e =>
    refine ⟨?_, ?_, ?_⟩ <;>
      simp [StateManager.transition, StateManager.dispatch,
        Storage.store_state_change, Storage.store_events, h]

/-- Witness for the amended claim C2: the failed-dispatch case leaves the
events log untouched. -/
theorem transition_persistence_witness :
    (StateManager.transition failingReducer smWithSnapshot scInit).2 = .error ⟨⟩ ∧
    (StateManager.transition failingReducer smWithSnapshot scInit).1.storage.events_rows
      = smWithSnapshot.storage.events_rows :=
  ⟨rfl, (transition_persistence failingReducer smWithSnapshot scInit).2.1 rfl⟩

/-- Claim C3, counterexample: the events.rs conversion turns a ChannelOpened
event between participants 1 and 2 into a state change even though
`our_address = 5` is NEITHER participant — and records participant 1 as the
partner. -/
theorem create_channel_opened_ignores_filter :
    (5 : Nat) ≠ 1 ∧ (5 : Nat) ≠ 2 ∧
    (create_channel_opened_state_change eventOldSample 5).map StateChange.partnerAddress
      = some (some 1) := by
  refine ⟨by decide, by decide, by decide⟩

theorem ChannelState.new_ok_partner (ci : CanonicalIdentifier)
    (ta tnra our partner reveal settle : Nat) (otx : TransactionExecutionStatus)
    (cfg : MediationFeeConfig) (ch : ChannelState)
    (h : ChannelState.new ci ta tnra our partner reveal settle otx cfg = .ok ch) :
    ch.partner_state.address = partner := by
  unfold ChannelState.new at h
  split at h
  · exact absurd h (by simp)
  · injection h with h
    subst h
    rfl

theorem channel_opened_build_ne_ok_none (config : RaidenConfig)
    (chain_state : ChainState) (event : EventRec)
    (channel_identifier settle_timeout partner_address : Nat) :
    channel_opened_build config chain_state event channel_identifier
      settle_timeout partner_address ≠ .ok none := by
  unfold channel_opened_build
  split
  · simp
  · dsimp only
    split
    · simp
    · simp

theorem channel_opened_build_partner (config : RaidenConfig)
    (chain_state : ChainState) (event : EventRec)
    (channel_identifier settle_timeout partner_address : Nat) (sc : StateChange)
    (h : channel_opened_build config chain_state event channel_identifier
      settle_timeout partner_address = .ok (some sc)) :
    sc.partnerAddress = some partner_address := by
  unfold channel_opened_build at h
  split at h
  · simp at h
  · dsimp only at h
    split at h
    · simp at h
    · rename_i tn ch hN
      simp at h
      subst h
      have hp := ChannelState.new_ok_partner _ _ _ _ _ _ _ _ _ _ hN
      simp [StateChange.partnerAddress, hp]

/-- Claim C3 (amended): the participant filter holds for
`EventDecoder::channel_opened` (the decode.rs path): the event yields no
state change exactly when `our_address` is neither participant, and any
produced state change records the other participant as the partner.  The
legacy `Event::create_channel_opened_state_change` (events.rs) violates the
claim: it converts unconditionally, choosing `participant2` when
`participant1 = our_address` and `participant1` otherwise. -/
theorem channel_opened_participant_filter (config : RaidenConfig)
    (chain_state : ChainState) (event : EventRec) (cid p1 p2 stt : Nat)
    (h1 : eventDataGet event.data ("channel_identifier") = some (.uint cid))
    (h2 : eventDataGet event.data ("participant1") = some (.address p1))
    (h3 : eventDataGet event.data ("participant2") = some (.address p2))
    (h4 : eventDataGet event.data ("settle_timeout") = some (.uint stt)) :
    (channel_opened config chain_state event = .ok none ↔
      chain_state.our_address ≠ p1 ∧ chain_state.our_address ≠ p2) ∧
    (∀ sc, channel_opened config chain_state event = .ok (some sc) →
      sc.partnerAddress = some (if p1 = chain_state.our_address then p2 else p1)) := by
  have key : channel_opened config chain_state event =
      (match (if chain_state.our_address = p1 then some p2
              else if chain_state.our_address = p2 then some p1 else none) with
       | none => .ok none
       | some partner_address =>
         channel_opened_build config chain_state event cid (stt % 2 ^ 64)
           partner_address) := by
    unfold channel_opened
    rw [h1, h2, h3, h4]
  rw [key]
  by_cases hA : chain_state.our_address = p1
  · rw [if_pos hA]
    refine ⟨⟨?_, ?_⟩, ?_⟩
    · intro h
      exact absurd h (channel_opened_build_ne_ok_none _ _ _ _ _ _)
    · intro hcon
      exact absurd hA hcon.1
    · intro sc hsc
      have hpa := channel_opened_build_partner _ _ _ _ _ _ _ hsc
      rw [hpa, if_pos hA.symm]
  · rw [if_neg hA]
    by_cases hB : chain_state.our_address = p2
    · rw [if_pos hB]
      refine ⟨⟨?_, ?_⟩, ?_⟩
      · intro h
        exact absurd h (channel_opened_build_ne_ok_none _ _ _ _ _ _)
      · intro hcon
        exact absurd hB hcon.2
      · intro sc hsc
        have hpa := channel_opened_build_partner _ _ _ _ _ _ _ hsc
        rw [hpa]
        by_cases hC : p1 = chain_state.our_address
        · rw [if_pos hC, hC, hB]
        · rw [if_neg hC]
    · rw [if_neg hB]
      refine ⟨⟨fun _ => ⟨hA, hB⟩, fun _ => rfl⟩, ?_⟩
      intro sc hsc
      simp at hsc

/-- Witness for the amended claim C3: on a well-formed ChannelOpened event
between participants 1 and 2 decoded by a node whose address is 1, the
theorem's conclusions hold. -/
theorem channel_opened_participant_filter_witness :
    (eventDataGet eventRecSample.data ("channel_identifier") = some (.uint 7) ∧
     eventDataGet eventRecSample.data ("participant1") = some (.address 1) ∧
     eventDataGet eventRecSample.data ("participant2") = some (.address 2) ∧
     eventDataGet eventRecSample.data ("settle_timeout") = some (.uint 500)) ∧
    ((channel_opened configSample chainStateOur1 eventRecSample = .ok none ↔
        chainStateOur1.our_address ≠ 1 ∧ chainStateOur1.our_address ≠ 2) ∧
     (∀ sc, channel_opened configSample chainStateOur1 eventRecSample = .ok (some sc) →
        sc.partnerAddress = some (if 1 = chainStateOur1.our_address then 2 else 1))) :=
  ⟨⟨by decide, by decide, by decide, by decide⟩,
   channel_opened_participant_filter configSample chainStateOur1 eventRecSample
     7 1 2 500 (by decide) (by decide) (by decide) (by decide)⟩

end PaymentChannel
